import Mathlib

/-!
Verification development for the Inkan key-management module.

The Rust source is embedded shallowly: pure program logic (base64 and hex
codecs, length dispatch, error mapping, the key-registry state machine) is
translated directly into executable Lean definitions; the cryptographic
primitives supplied by external crates (`sha2`, `pbkdf2`, `aes_gcm`,
`ed25519_dalek`) are gathered in a `CryptoPrims` parameter structure, and
theorems hypothesise exactly the standard correctness laws of those
primitives where a property depends on them.
-/

namespace Inkan

/-! ## Base64 (the `base64` crate's STANDARD engine: padded, canonical) -/

def b64Alphabet : List Char :=
  ("ABCDEFGHIJKLMNOPQRSTUVWXYZabcdefghijklmnopqrstuvwxyz0123456789+/").toList

def b64CharOf (n : Nat) : Char := b64Alphabet.getD n 'A'

def b64IndexOf (c : Char) : Option Nat := b64Alphabet.findIdx? (fun x => x == c)

def b64Enc3 (a b c : UInt8) : List Char :=
  [b64CharOf (a.toNat / 4), b64CharOf (a.toNat % 4 * 16 + b.toNat / 16),
   b64CharOf (b.toNat % 16 * 4 + c.toNat / 64), b64CharOf (c.toNat % 64)]

def b64EncodeBytes : List UInt8 → List Char
  | [] => []
  | [a] => [b64CharOf (a.toNat / 4), b64CharOf (a.toNat % 4 * 16), '=', '=']
  | [a, b] => [b64CharOf (a.toNat / 4), b64CharOf (a.toNat % 4 * 16 + b.toNat / 16),
               b64CharOf (b.toNat % 16 * 4), '=']
  | a :: b :: c :: rest => b64Enc3 a b c ++ b64EncodeBytes rest

def b64DecodeBytes : List Char → Option (List UInt8)
  | [] => some []
  | c1 :: c2 :: c3 :: c4 :: rest =>
    match b64IndexOf c1, b64IndexOf c2 with
    | some s1, some s2 =>
      if c3 = '=' then
        if c4 = '=' ∧ rest = [] ∧ s2 % 16 = 0 then
          some [UInt8.ofNat (s1 * 4 + s2 / 16)]
        else none
      else
        match b64IndexOf c3 with
        | some s3 =>
          if c4 = '=' then
            if rest = [] ∧ s3 % 4 = 0 then
              some [UInt8.ofNat (s1 * 4 + s2 / 16), UInt8.ofNat (s2 % 16 * 16 + s3 / 4)]
            else none
          else
            match b64IndexOf c4 with
            | some s4 =>
              match b64DecodeBytes rest with
              | some bs => some (UInt8.ofNat (s1 * 4 + s2 / 16) ::
                                 UInt8.ofNat (s2 % 16 * 16 + s3 / 4) ::
                                 UInt8.ofNat (s3 % 4 * 64 + s4) :: bs)
              | none => none
            | none => none
        | none => none
    | _, _ => none
  | _ => none

def base64Encode (bs : List UInt8) : String := String.mk (b64EncodeBytes bs)

def base64Decode (s : String) : Option (List UInt8) := b64DecodeBytes s.toList

theorem b64IndexOf_b64CharOf : ∀ n, n < 64 → b64IndexOf (b64CharOf n) = some n := by decide

theorem b64CharOf_ne_pad : ∀ n, n < 64 → b64CharOf n ≠ '=' := by decide

theorem u8_lt (a : UInt8) : a.toNat < 256 := a.toNat_lt

theorem u8_ofNat_toNat (x : UInt8) : UInt8.ofNat x.toNat = x := by
  apply UInt8.ext
  have h : (UInt8.ofNat x.toNat).toNat = x.toNat % 256 := rfl
  rw [h, Nat.mod_eq_of_lt (u8_lt x)]

theorem u8_ofNat_fst (a b : UInt8) :
    UInt8.ofNat (a.toNat / 4 * 4 + (a.toNat % 4 * 16 + b.toNat / 16) / 16) = a := by
  have ha := u8_lt a
  have hb := u8_lt b
  have h : a.toNat / 4 * 4 + (a.toNat % 4 * 16 + b.toNat / 16) / 16 = a.toNat := by omega
  rw [h, u8_ofNat_toNat]

theorem u8_ofNat_snd (a b c : UInt8) :
    UInt8.ofNat ((a.toNat % 4 * 16 + b.toNat / 16) % 16 * 16 + (b.toNat % 16 * 4 + c.toNat / 64) / 4) = b := by
  have ha := u8_lt a
  have hb := u8_lt b
  have hc := u8_lt c
  have h : (a.toNat % 4 * 16 + b.toNat / 16) % 16 * 16 + (b.toNat % 16 * 4 + c.toNat / 64) / 4 = b.toNat := by
    omega
  rw [h, u8_ofNat_toNat]

theorem u8_ofNat_thd (b c : UInt8) :
    UInt8.ofNat ((b.toNat % 16 * 4 + c.toNat / 64) % 4 * 64 + c.toNat % 64) = c := by
  have hb := u8_lt b
  have hc := u8_lt c
  have h : (b.toNat % 16 * 4 + c.toNat / 64) % 4 * 64 + c.toNat % 64 = c.toNat := by omega
  rw [h, u8_ofNat_toNat]

theorem u8_ofNat_eq (n : Nat) (x : UInt8) (h : n = x.toNat) : UInt8.ofNat n = x := by
  rw [h, u8_ofNat_toNat]

theorem b64_roundtrip : ∀ l : List UInt8, b64DecodeBytes (b64EncodeBytes l) = some l
  | [] => rfl
  | [a] => by
    have ha := u8_lt a
    have e1 := b64IndexOf_b64CharOf (a.toNat / 4) (by omega)
    have e2 := b64IndexOf_b64CharOf (a.toNat % 4 * 16) (by omega)
    have hzero : a.toNat % 4 * 16 % 16 = 0 := by omega
    simp [b64EncodeBytes, b64DecodeBytes, e1, e2, hzero]
    exact u8_ofNat_eq _ a (by omega)
  | [a, b] => by
    have ha := u8_lt a
    have hb := u8_lt b
    have e1 := b64IndexOf_b64CharOf (a.toNat / 4) (by omega)
    have e2 := b64IndexOf_b64CharOf (a.toNat % 4 * 16 + b.toNat / 16) (by omega)
    have e3 := b64IndexOf_b64CharOf (b.toNat % 16 * 4) (by omega)
    have n3 := b64CharOf_ne_pad (b.toNat % 16 * 4) (by omega)
    have hzero : b.toNat % 16 * 4 % 4 = 0 := by omega
    simp [b64EncodeBytes, b64DecodeBytes, e1, e2, e3, n3, hzero]
    exact ⟨u8_ofNat_eq _ a (by omega), u8_ofNat_eq _ b (by omega)⟩
  | a :: b :: c :: rest => by
    have ha := u8_lt a
    have hb := u8_lt b
    have hc := u8_lt c
    have e1 := b64IndexOf_b64CharOf (a.toNat / 4) (by omega)
    have e2 := b64IndexOf_b64CharOf (a.toNat % 4 * 16 + b.toNat / 16) (by omega)
    have e3 := b64IndexOf_b64CharOf (b.toNat % 16 * 4 + c.toNat / 64) (by omega)
    have e4 := b64IndexOf_b64CharOf (c.toNat % 64) (by omega)
    have n3 := b64CharOf_ne_pad (b.toNat % 16 * 4 + c.toNat / 64) (by omega)
    have n4 := b64CharOf_ne_pad (c.toNat % 64) (by omega)
    have ih := b64_roundtrip rest
    simp [b64EncodeBytes, b64Enc3, b64DecodeBytes, e1, e2, e3, e4, n3, n4, ih,
          u8_ofNat_fst, u8_ofNat_snd, u8_ofNat_thd]

theorem base64_roundtrip (l : List UInt8) : base64Decode (base64Encode l) = some l := by
  simpa [base64Encode, base64Decode] using b64_roundtrip l

/-! ## Hex (the `hex` crate: lowercase encode, case-insensitive decode) -/

def hexDigits : List Char := ("0123456789abcdef").toList

def hexCharOf (n : Nat) : Char := hexDigits.getD n '0'

def hexVal (c : Char) : Option Nat :=
  if '0' ≤ c ∧ c ≤ '9' then some (c.toNat - '0'.toNat)
  else if 'a' ≤ c ∧ c ≤ 'f' then some (c.toNat - 'a'.toNat + 10)
  else if 'A' ≤ c ∧ c ≤ 'F' then some (c.toNat - 'A'.toNat + 10)
  else none

def hexEncodeBytes : List UInt8 → List Char
  | [] => []
  | b :: rest => hexCharOf (b.toNat / 16) :: hexCharOf (b.toNat % 16) :: hexEncodeBytes rest

def hexDecodeBytes : List Char → Option (List UInt8)
  | [] => some []
  | c1 :: c2 :: rest =>
    match hexVal c1, hexVal c2, hexDecodeBytes rest with
    | some hi, some lo, some bs => some (UInt8.ofNat (hi * 16 + lo) :: bs)
    | _, _, _ => none
  | [_] => none

def hexEncode (bs : List UInt8) : String := String.mk (hexEncodeBytes bs)

def hexDecode (s : String) : Option (List UInt8) := hexDecodeBytes s.toList

theorem hexVal_hexCharOf : ∀ n, n < 16 → hexVal (hexCharOf n) = some n := by decide

theorem hex_roundtrip : ∀ l : List UInt8, hexDecodeBytes (hexEncodeBytes l) = some l
  | [] => rfl
  | b :: rest => by
    have hb := u8_lt b
    have e1 := hexVal_hexCharOf (b.toNat / 16) (by omega)
    have e2 := hexVal_hexCharOf (b.toNat % 16) (by omega)
    have hv : b.toNat / 16 * 16 + b.toNat % 16 = b.toNat := by omega
    have ih := hex_roundtrip rest
    simp [hexEncodeBytes, hexDecodeBytes, e1, e2, ih, hv, u8_ofNat_toNat]

theorem hexDecode_hexEncode (l : List UInt8) : hexDecode (hexEncode l) = some l := by
  simpa [hexEncode, hexDecode] using hex_roundtrip l

theorem hexEncodeBytes_length (l : List UInt8) : (hexEncodeBytes l).length = 2 * l.length := by
  induction l with
  | nil => rfl
  | cons b rest ih => simp [hexEncodeBytes, ih]; omega

theorem hexEncode_length (l : List UInt8) : (hexEncode l).length = 2 * l.length := by
  simpa [hexEncode, String.length] using hexEncodeBytes_length l

/-! ## Data model (src/models/mod.rs) -/

inductive KeyType
  | Ed25519
  | Ed25519Encrypted
  | Unknown
deriving DecidableEq, Repr, Inhabited

inductive KeyStrength
  | Standard
  | High
  | Ultra
  | Unknown
deriving DecidableEq, Repr, Inhabited

/-- `KeyPair` from src/models/mod.rs. `Uuid` is modelled as `Nat` and
`DateTime<Utc>` as `Int` (instants are only compared). -/
structure KeyPair where
  id : Nat
  name : String
  description : Option String
  public_key : String
  private_key : String
  salt : Option String
  created_at : Int
  last_used : Option Int
  expires_at : Option Int
  is_active : Bool
  tags : List String
  key_type : KeyType
  key_strength : KeyStrength
deriving DecidableEq, Repr, Inhabited

/-- `KeyManagementError` from src/models/mod.rs (variants used by the core). -/
inductive KeyManagementError
  | KeyNotFound (id : Nat)
  | InvalidKeyFormat (msg : String)
  | SignatureVerificationFailed (msg : String)
  | PrivateKeyDecryptionFailed (msg : String)
  | StorageError (msg : String)
  | InvalidRequest (msg : String)
  | InternalError (msg : String)
  | KeyExpired (id : Nat)
  | KeyRevoked (id : Nat)
  | InsufficientPermissions (msg : String)
  | RateLimitExceeded (msg : String)
deriving DecidableEq, Repr, Inhabited

structure GenerateKeyRequest where
  name : String
  description : Option String
  password : Option String
  expires_at : Option Int
  tags : Option (List String)
  key_strength : Option KeyStrength
deriving DecidableEq, Repr, Inhabited

structure SignDocumentRequest where
  key_id : Nat
  document_hash : Option String
  password : Option String
  document_content : Option String
deriving DecidableEq, Repr, Inhabited

structure VerifySignatureRequest where
  public_key : String
  document_hash : Option String
  signature : String
  document_content : Option String
deriving DecidableEq, Repr, Inhabited

structure UpdateKeyRequest where
  name : Option String
  description : Option String
  tags : Option (List String)
  expires_at : Option Int
  is_active : Option Bool
deriving DecidableEq, Repr, Inhabited

/-! ## Cryptographic primitives

The repository delegates all cryptography to external crates
(`sha2`, `pbkdf2`/`hmac`, `aes_gcm`, `ed25519_dalek`).  They are modelled
as a parameter structure; the only laws baked in are the fixed output
lengths that the crates' types guarantee statically.  Cryptographic
correctness/rejection laws appear as explicit hypotheses of the theorems
that need them. -/

structure CryptoPrims where
  /-- `Sha256::digest` over the UTF-8 bytes of a string. -/
  sha256 : String → List UInt8
  sha256_length : ∀ s, (sha256 s).length = 32
  /-- `pbkdf2::pbkdf2::<Hmac<Sha256>>(password, salt, iterations)` filling
  an output buffer of the given length; `none` models the crate's error. -/
  pbkdf2HmacSha256 : String → List UInt8 → Nat → Nat → Option (List UInt8)
  /-- `Aes256Gcm::encrypt(nonce, plaintext)` under a key: ciphertext with
  the 16-byte tag appended, or `none` on failure. -/
  aesGcmEncrypt : List UInt8 → List UInt8 → List UInt8 → Option (List UInt8)
  /-- `Aes256Gcm::decrypt(nonce, ciphertext‖tag)` under a key; `none` is an
  authentication failure. -/
  aesGcmDecrypt : List UInt8 → List UInt8 → List UInt8 → Option (List UInt8)
  /-- Whether `SigningKey::from_keypair_bytes` succeeds on these 64 bytes. -/
  edValidKeypairBytes : List UInt8 → Bool
  /-- `signing_key.verifying_key().to_bytes()` for a key given as its
  64 keypair bytes. -/
  edPublicKey : List UInt8 → List UInt8
  edPublicKey_length : ∀ kp, (edPublicKey kp).length = 32
  /-- `signing_key.sign(msg).to_bytes()`. -/
  edSign : List UInt8 → List UInt8 → List UInt8
  edSign_length : ∀ kp m, (edSign kp m).length = 64
  /-- Whether `VerifyingKey::from_bytes` succeeds on these 32 bytes. -/
  edValidPoint : List UInt8 → Bool
  /-- `verifying_key.verify(msg, sig).is_ok()`. -/
  edVerify : List UInt8 → List UInt8 → List UInt8 → Bool

/-! ## Key generation and the encryption codec (src/key_generation/mod.rs)

The random draws taken from `OsRng`/`rand` in the source (the signing key,
the 32-byte salt, the 96-bit nonce, the UUID) and the clock reading are
explicit arguments. -/

/-- `encrypt_private_key` from src/key_generation/mod.rs. -/
def encrypt_private_key (C : CryptoPrims) (rngSalt rngNonce : List UInt8)
    (privateKey : List UInt8) (password : String) :
    Except KeyManagementError (String × Option String) :=
  match C.pbkdf2HmacSha256 password rngSalt 100000 32 with
  | none => .error (.InternalError "PBKDF2 key derivation failed")
  | some key =>
    match C.aesGcmEncrypt key rngNonce privateKey with
    | none => .error (.InternalError "Encryption failed")
    | some encryptedData =>
      let combined := rngNonce ++ encryptedData
      .ok (base64Encode combined, some (base64Encode rngSalt))

/-- `generate_key_pair` from src/key_generation/mod.rs. -/
def generate_key_pair (C : CryptoPrims) (rngKeypair rngSalt rngNonce : List UInt8)
    (rngId : Nat) (now : Int) (request : GenerateKeyRequest) :
    Except KeyManagementError KeyPair :=
  let private_key_bytes := rngKeypair
  let public_key_bytes := C.edPublicKey rngKeypair
  let encStep : Except KeyManagementError (String × Option String) :=
    match request.password with
    | some password => encrypt_private_key C rngSalt rngNonce private_key_bytes password
    | none => .ok (base64Encode private_key_bytes, none)
  match encStep with
  | .error e => .error e
  | .ok (encrypted_private_key, salt) =>
    let public_key_b64 := base64Encode public_key_bytes
    let key_type := if request.password.isSome then KeyType.Ed25519Encrypted else KeyType.Ed25519
    let key_strength := request.key_strength.getD KeyStrength.Standard
    .ok { id := rngId
          name := request.name
          description := request.description
          public_key := public_key_b64
          private_key := encrypted_private_key
          salt := salt
          created_at := now
          last_used := none
          expires_at := request.expires_at
          is_active := true
          tags := request.tags.getD []
          key_type := key_type
          key_strength := key_strength }

/-- `decrypt_private_key` from src/key_generation/mod.rs. -/
def decrypt_private_key (C : CryptoPrims) (encryptedPrivateKey : String)
    (password : String) (salt : Option String) :
    Except KeyManagementError (List UInt8) :=
  match base64Decode encryptedPrivateKey with
  | none => .error (.InvalidKeyFormat "Invalid encrypted key encoding")
  | some encryptedData =>
    if encryptedData.length < 12 then
      .error (.InvalidKeyFormat "Encrypted data too short")
    else
      let nonceBytes := encryptedData.take 12
      let encryptedContent := encryptedData.drop 12
      match salt with
      | none => .error (.InvalidRequest "Salt required for encrypted keys")
      | some saltStr =>
        match base64Decode saltStr with
        | none => .error (.InvalidKeyFormat "Invalid salt encoding")
        | some saltBytes =>
          match C.pbkdf2HmacSha256 password saltBytes 100000 32 with
          | none => .error (.InternalError "PBKDF2 key derivation failed")
          | some key =>
            match C.aesGcmDecrypt key nonceBytes encryptedContent with
            | none => .error (.PrivateKeyDecryptionFailed "Invalid password or corrupted data")
            | some decryptedData => .ok decryptedData

/-! ## Signing and verification (src/key_verification/mod.rs) -/

/-- Outcome of `sign_document`: the source contains two
`try_into().unwrap()` calls, so besides the `Result` it can abort. -/
inductive SignResult
  | ok (sig : String)
  | error (e : KeyManagementError)
  | panic
deriving DecidableEq, Repr, Inhabited

/-- The encrypted/unencrypted dispatch at the top of `sign_document`
(src/key_verification/mod.rs lines 19-34), yielding the keypair bytes of
the signing key or aborting. -/
def resolveSigningKey (C : CryptoPrims) (password : Option String)
    (privateKeyB64 : String) (saltB64 : Option String)
    (privateKeyBytes : List UInt8) : Except SignResult (List UInt8) :=
  if privateKeyBytes.length > 64 then
    match password with
    | some pw =>
      match decrypt_private_key C privateKeyB64 pw saltB64 with
      | .error e => .error (.error e)
      | .ok decryptedBytes =>
        if decryptedBytes.length = 64 then
          if C.edValidKeypairBytes decryptedBytes then .ok decryptedBytes
          else .error (.error (.InvalidKeyFormat "Invalid decrypted private key format"))
        else .error .panic
    | none => .error (.error (.InvalidRequest "Password required for encrypted private key"))
  else
    if privateKeyBytes.length = 64 then
      if C.edValidKeypairBytes privateKeyBytes then .ok privateKeyBytes
      else .error (.error (.InvalidKeyFormat "Invalid private key format"))
    else .error .panic

/-- The document-identity normalisation shared by `sign_document` and
`verify_signature`: a 64-character value is kept verbatim, anything else
is SHA-256-hashed and hex-encoded. -/
def documentHashOf (C : CryptoPrims) (s : String) : String :=
  if s.length = 64 then s else hexEncode (C.sha256 s)

/-- `sign_document` from src/key_verification/mod.rs. -/
def sign_document (C : CryptoPrims) (request : SignDocumentRequest)
    (privateKeyB64 : String) (saltB64 : Option String) : SignResult :=
  match base64Decode privateKeyB64 with
  | none => .error (.InvalidKeyFormat "Invalid private key encoding")
  | some privateKeyBytes =>
    match resolveSigningKey C request.password privateKeyB64 saltB64 privateKeyBytes with
    | .error r => r
    | .ok signingKey =>
      match request.document_hash with
      | none => .error (.InvalidRequest "Document hash or content must be provided")
      | some h =>
        let documentHash := documentHashOf C h
        match hexDecode documentHash with
        | none => .error (.InvalidRequest "Invalid document hash format")
        | some hashBytes => .ok (base64Encode (C.edSign signingKey hashBytes))

/-- `verify_signature` from src/key_verification/mod.rs. -/
def verify_signature (C : CryptoPrims) (request : VerifySignatureRequest) :
    Except KeyManagementError Bool :=
  match base64Decode request.public_key with
  | none => .error (.InvalidKeyFormat "Invalid public key encoding")
  | some publicKeyBytes =>
    if publicKeyBytes.length = 32 then
      if C.edValidPoint publicKeyBytes then
        match base64Decode request.signature with
        | none => .error (.InvalidKeyFormat "Invalid signature encoding")
        | some signatureBytes =>
          if signatureBytes.length = 64 then
            match request.document_hash with
            | none => .error (.InvalidRequest "Document hash or content must be provided")
            | some h =>
              match hexDecode (documentHashOf C h) with
              | none => .error (.InvalidRequest "Invalid document hash format")
              | some hashBytes => .ok (C.edVerify publicKeyBytes hashBytes signatureBytes)
          else .error (.InvalidKeyFormat "Invalid signature length")
      else .error (.InvalidKeyFormat "Invalid public key format")
    else .error (.InvalidKeyFormat "Invalid public key length")

/-- `create_document_hash` from src/key_verification/mod.rs. -/
def create_document_hash (C : CryptoPrims) (content : String) : String :=
  hexEncode (C.sha256 content)

/-- `sign_document_content` from src/key_verification/mod.rs. -/
def sign_document_content (C : CryptoPrims) (request : SignDocumentRequest)
    (privateKeyB64 : String) (saltB64 : Option String)
    (documentContent : String) : SignResult :=
  let documentHash := create_document_hash C documentContent
  let modifiedRequest : SignDocumentRequest :=
    { document_hash := some documentHash
      key_id := request.key_id
      password := request.password
      document_content := none }
  sign_document C modifiedRequest privateKeyB64 saltB64

/-! ## Key storage (src/key_storage/mod.rs)

The `HashMap<Uuid, KeyPair>` behind the mutex is modelled as an
association list; `Utc::now()` readings are explicit arguments.  The
backing document written by `save_to_disk` is modelled as the serialised
record list (`disk`), `none` before the first write. -/

def lookupKey : List (Nat × KeyPair) → Nat → Option KeyPair
  | [], _ => none
  | (k, v) :: rest, keyId => if k = keyId then some v else lookupKey rest keyId

def insertKey : List (Nat × KeyPair) → Nat → KeyPair → List (Nat × KeyPair)
  | [], keyId, v => [(keyId, v)]
  | (k, w) :: rest, keyId, v =>
    if k = keyId then (k, v) :: rest else (k, w) :: insertKey rest keyId v

structure KeyStorageState where
  keys : List (Nat × KeyPair)
  disk : Option (List KeyPair)
deriving DecidableEq, Repr, Inhabited

/-- `save_to_disk`: re-serialises the whole map to the backing document. -/
def save_to_disk (s : KeyStorageState) : KeyStorageState :=
  { s with disk := some (s.keys.map (·.2)) }

/-- `store_key`: insert into the map, then persist. -/
def store_key (s : KeyStorageState) (keyPair : KeyPair) : KeyStorageState :=
  save_to_disk { s with keys := insertKey s.keys keyPair.id keyPair }

/-- `get_key`: lookup, then the expiry check, then the active check. -/
def get_key (s : KeyStorageState) (keyId : Nat) (now : Int) :
    Except KeyManagementError KeyPair :=
  match lookupKey s.keys keyId with
  | none => .error (.KeyNotFound keyId)
  | some keyPair =>
    if (match keyPair.expires_at with
        | some expiresAt => decide (now > expiresAt)
        | none => false) then
      .error (.KeyExpired keyId)
    else if keyPair.is_active = false then
      .error (.KeyRevoked keyId)
    else
      .ok keyPair

/-- `update_last_used`: sets the timestamp in memory only. -/
def update_last_used (s : KeyStorageState) (keyId : Nat) (now : Int) :
    Except KeyManagementError KeyStorageState :=
  match lookupKey s.keys keyId with
  | none => .error (.KeyNotFound keyId)
  | some keyPair =>
    .ok { s with keys := insertKey s.keys keyId { keyPair with last_used := some now } }

/-- The field merge inside `update_key`: only fields present in the patch
are applied. -/
def applyUpdate (keyPair : KeyPair) (update : UpdateKeyRequest) : KeyPair :=
  let keyPair := match update.name with
    | some name => { keyPair with name := name }
    | none => keyPair
  let keyPair := match update.description with
    | some description => { keyPair with description := some description }
    | none => keyPair
  let keyPair := match update.tags with
    | some tags => { keyPair with tags := tags }
    | none => keyPair
  let keyPair := match update.expires_at with
    | some expiresAt => { keyPair with expires_at := some expiresAt }
    | none => keyPair
  match update.is_active with
    | some isActive => { keyPair with is_active := isActive }
    | none => keyPair

/-- `update_key`: merge the patch, then persist. -/
def update_key (s : KeyStorageState) (keyId : Nat) (update : UpdateKeyRequest) :
    Except KeyManagementError (KeyPair × KeyStorageState) :=
  match lookupKey s.keys keyId with
  | none => .error (.KeyNotFound keyId)
  | some keyPair =>
    let updated := applyUpdate keyPair update
    .ok (updated, save_to_disk { s with keys := insertKey s.keys keyId updated })

/-- `deactivate_key`: clears the flag in memory only. -/
def deactivate_key (s : KeyStorageState) (keyId : Nat) :
    Except KeyManagementError KeyStorageState :=
  match lookupKey s.keys keyId with
  | none => .error (.KeyNotFound keyId)
  | some keyPair =>
    .ok { s with keys := insertKey s.keys keyId { keyPair with is_active := false } }

/-- `revoke_key`: deactivates and stamps `expires_at := now`, in memory
only (the reason is accepted and dropped). -/
def revoke_key (s : KeyStorageState) (keyId : Nat) (_reason : Option String)
    (now : Int) : Except KeyManagementError KeyStorageState :=
  match lookupKey s.keys keyId with
  | none => .error (.KeyNotFound keyId)
  | some keyPair =>
    .ok { s with
          keys := insertKey s.keys keyId
            { keyPair with is_active := false, expires_at := some now } }

deriving instance DecidableEq for Except

/-! ## Concrete primitive instances

Executable stand-ins for the external crates, used to evaluate the
embedded operations on concrete inputs.  `toyPrims` is degenerate;
`toyPrimsAuth` has a key-checking AEAD and a password-separating KDF. -/

def toyPrims : CryptoPrims where
  sha256 := fun _ => List.replicate 32 0
  sha256_length := fun _ => by simp
  pbkdf2HmacSha256 := fun _ _ _ _ => some (List.replicate 32 0)
  aesGcmEncrypt := fun _ _ pt => some (pt ++ List.replicate 16 0)
  aesGcmDecrypt := fun _ _ ct => some (ct.take (ct.length - 16))
  edValidKeypairBytes := fun _ => true
  edPublicKey := fun _ => List.replicate 32 0
  edPublicKey_length := fun _ => by simp
  edSign := fun _ _ => List.replicate 64 0
  edSign_length := fun _ _ => by simp
  edValidPoint := fun _ => true
  edVerify := fun _ _ _ => true

def toyPrimsAuth : CryptoPrims where
  sha256 := fun _ => List.replicate 32 0
  sha256_length := fun _ => by simp
  pbkdf2HmacSha256 := fun pw _ _ _ => some (if pw = "p" then [0] else [1])
  aesGcmEncrypt := fun key _ pt => some (key ++ pt)
  aesGcmDecrypt := fun key _ ct =>
    if ct.take key.length = key then some (ct.drop key.length) else none
  edValidKeypairBytes := fun _ => true
  edPublicKey := fun _ => List.replicate 32 0
  edPublicKey_length := fun _ => by simp
  edSign := fun _ _ => List.replicate 64 0
  edSign_length := fun _ _ => by simp
  edValidPoint := fun _ => true
  edVerify := fun _ _ _ => true

theorem lookupKey_insertKey (l : List (Nat × KeyPair)) (k : Nat) (v : KeyPair) :
    lookupKey (insertKey l k v) k = some v := by
  induction l with
  | nil => simp [insertKey, lookupKey]
  | cons hd tl ih =>
    obtain ⟨k', v'⟩ := hd
    by_cases h : k' = k
    · simp [insertKey, h, lookupKey]
    · simp [insertKey, h, lookupKey, ih]

/-! ## Claim C2 — lifecycle policy on `get` -/

def c2Record : KeyPair :=
  { id := 1, name := "Alpha", description := none, public_key := "", private_key := "",
    salt := none, created_at := 0, last_used := none, expires_at := some 0,
    is_active := false, tags := [], key_type := .Ed25519, key_strength := .Standard }

def c2State : KeyStorageState := { keys := [(1, c2Record)], disk := none }

def c2ActiveRecord : KeyPair := { c2Record with expires_at := none, is_active := true }

def c2ActiveState : KeyStorageState := { keys := [(1, c2ActiveRecord)], disk := none }

def c2RevokedRecord : KeyPair :=
  { c2ActiveRecord with is_active := false, expires_at := some 0 }

/-- C2 as stated is false: the stored record under id 1 has
`is_active = false` and `expires_at = 0`, yet `get` at time 1 returns
`KeyExpired`, not `KeyRevoked` — the expiry check precedes the
revocation check.  Likewise `revoke` at time 0 followed by `get` at
time 1 yields `KeyExpired`. -/
theorem c2_counterexample :
    lookupKey c2State.keys 1 = some c2Record ∧
    c2Record.is_active = false ∧
    get_key c2State 1 1 = .error (.KeyExpired 1) ∧
    get_key c2State 1 1 ≠ .error (.KeyRevoked 1) ∧
    revoke_key c2ActiveState 1 none 0 =
      .ok { keys := [(1, c2RevokedRecord)], disk := none } ∧
    get_key { keys := [(1, c2RevokedRecord)], disk := none } 1 1 =
      .error (.KeyExpired 1) := by
  decide

/-- C2 amended: `get(id)` on a record with `is_active == false` returns
`KeyRevoked` only while `expires_at` is absent or not yet passed; once
`expires_at` has passed, the expiry check fires first and `get` returns
`KeyExpired`.  In particular, after `revoke(id)` (which stamps
`expires_at` with the revocation time) a strictly later `get(id)`
returns `KeyExpired`. -/
theorem c2_get_on_inactive (s : KeyStorageState) (keyId : Nat) (kp : KeyPair)
    (hlook : lookupKey s.keys keyId = some kp)
    (hactive : kp.is_active = false) :
    (∀ now : Int, (∀ e, kp.expires_at = some e → now ≤ e) →
        get_key s keyId now = .error (.KeyRevoked keyId)) ∧
    (∀ now e : Int, kp.expires_at = some e → now > e →
        get_key s keyId now = .error (.KeyExpired keyId)) ∧
    (∀ (t now : Int) (reason : Option String) (s' : KeyStorageState),
        revoke_key s keyId reason t = .ok s' → now > t →
        get_key s' keyId now = .error (.KeyExpired keyId)) := by
  refine ⟨?_, ?_, ?_⟩
  · intro now hne
    match he : kp.expires_at with
    | none => simp [get_key, hlook, he, hactive]
    | some e =>
      have hle := hne e he
      have hng : ¬ now > e := by omega
      simp [get_key, hlook, he, hactive, hng]
  · intro now e he hgt
    simp [get_key, hlook, he, hgt]
  · intro t now reason s' hrev hgt
    rw [revoke_key, hlook] at hrev
    injection hrev with hrev
    subst hrev
    simp [get_key, lookupKey_insertKey, hgt]

/-- Witness for `c2_get_on_inactive` at a concrete inactive record. -/
theorem c2_get_on_inactive_witness :
    (∀ now : Int, (∀ e, c2Record.expires_at = some e → now ≤ e) →
        get_key c2State 1 now = .error (.KeyRevoked 1)) ∧
    (∀ now e : Int, c2Record.expires_at = some e → now > e →
        get_key c2State 1 now = .error (.KeyExpired 1)) ∧
    (∀ (t now : Int) (reason : Option String) (s' : KeyStorageState),
        revoke_key c2State 1 reason t = .ok s' → now > t →
        get_key s' 1 now = .error (.KeyExpired 1)) :=
  c2_get_on_inactive c2State 1 c2Record (by decide) (by decide)

/-! ## Claim C5 — reactivation via `update` -/

def c5Record : KeyPair :=
  { id := 2, name := "Beta", description := none, public_key := "", private_key := "",
    salt := none, created_at := 0, last_used := none, expires_at := some 0,
    is_active := false, tags := [], key_type := .Ed25519, key_strength := .Standard }

def c5State : KeyStorageState := { keys := [(2, c5Record)], disk := none }

def c5Patch : UpdateKeyRequest :=
  { name := none, description := none, tags := none, expires_at := none,
    is_active := some true }

def c5Updated : KeyPair := { c5Record with is_active := true }

/-- C5 as stated is false: the record under id 2 is revoked and expired
(`is_active = false`, `expires_at = 0`); `update` with
`is_active = true` and no `expires_at` in the patch leaves the past
`expires_at` in place (a patch cannot clear the field), so at time 1 the
record is still effectively expired and `get` returns `KeyExpired`
rather than the record. -/
theorem c5_counterexample :
    update_key c5State 2 c5Patch =
      .ok (c5Updated, { keys := [(2, c5Updated)], disk := some [c5Updated] }) ∧
    c5Updated.is_active = true ∧
    c5Updated.expires_at = some 0 ∧
    get_key { keys := [(2, c5Updated)], disk := some [c5Updated] } 2 1 =
      .error (.KeyExpired 2) := by
  decide

/-- C5 amended: `update(id, patch)` with `is_active=true` and no
`expires_at` in the patch sets the flag but leaves `expires_at`
untouched (the patch cannot clear it); the key becomes effectively
active again — and `get(id)` returns it — exactly when the stored
`expires_at` is absent or not yet passed, while a record whose
`expires_at` has passed (including any key revoked through `revoke`)
stays expired. -/
theorem c5_update_reactivation (s : KeyStorageState) (keyId : Nat) (kp : KeyPair)
    (patch : UpdateKeyRequest) (now : Int)
    (hlook : lookupKey s.keys keyId = some kp)
    (hact : patch.is_active = some true)
    (hexp : patch.expires_at = none) :
    ∃ s', update_key s keyId patch = .ok (applyUpdate kp patch, s') ∧
      (applyUpdate kp patch).expires_at = kp.expires_at ∧
      (applyUpdate kp patch).is_active = true ∧
      ((∀ e, kp.expires_at = some e → now ≤ e) →
        get_key s' keyId now = .ok (applyUpdate kp patch)) ∧
      (∀ e, kp.expires_at = some e → now > e →
        get_key s' keyId now = .error (.KeyExpired keyId)) := by
  have hexp' : (applyUpdate kp patch).expires_at = kp.expires_at := by
    simp [applyUpdate, hexp, hact]
    cases patch.name <;> cases patch.description <;> cases patch.tags <;> rfl
  have hact' : (applyUpdate kp patch).is_active = true := by simp [applyUpdate, hact]
  refine ⟨save_to_disk { s with keys := insertKey s.keys keyId (applyUpdate kp patch) },
          ?_, hexp', hact', ?_, ?_⟩
  · simp [update_key, hlook]
  · intro hne
    match he : kp.expires_at with
    | none => simp [get_key, save_to_disk, lookupKey_insertKey, hexp', hact', he]
    | some e =>
      have hle := hne e he
      have hng : ¬ now > e := by omega
      simp [get_key, save_to_disk, lookupKey_insertKey, hexp', hact', he, hng]
  · intro e he hgt
    simp [get_key, save_to_disk, lookupKey_insertKey, hexp', he, hgt]

/-- Witness for `c5_update_reactivation` at a concrete revoked record
with no stored expiry. -/
theorem c5_update_reactivation_witness :
    ∃ s', update_key { keys := [(3, { c5Record with id := 3, expires_at := none })], disk := none }
            3 c5Patch = .ok (applyUpdate { c5Record with id := 3, expires_at := none } c5Patch, s') ∧
      (applyUpdate { c5Record with id := 3, expires_at := none } c5Patch).expires_at =
        ({ c5Record with id := 3, expires_at := none } : KeyPair).expires_at ∧
      (applyUpdate { c5Record with id := 3, expires_at := none } c5Patch).is_active = true ∧
      ((∀ e, ({ c5Record with id := 3, expires_at := none } : KeyPair).expires_at = some e → (7 : Int) ≤ e) →
        get_key s' 3 7 = .ok (applyUpdate { c5Record with id := 3, expires_at := none } c5Patch)) ∧
      (∀ e, ({ c5Record with id := 3, expires_at := none } : KeyPair).expires_at = some e → (7 : Int) > e →
        get_key s' 3 7 = .error (.KeyExpired 3)) :=
  c5_update_reactivation _ 3 _ c5Patch 7 (by decide) (by decide) (by decide)

/-! ## Claim C8 — decryption without a salt -/

/-- C8 as stated is false: the empty envelope string base64-decodes to
0 bytes, so with an absent salt `decrypt_private_key` reports
`InvalidKeyFormat` ("too short") — the length check precedes the salt
check — not `InvalidRequest`. -/
theorem c8_counterexample :
    decrypt_private_key toyPrims "" "pw" none =
      .error (.InvalidKeyFormat "Encrypted data too short") ∧
    (Except.error (KeyManagementError.InvalidKeyFormat "Encrypted data too short") :
      Except KeyManagementError (List UInt8)) ≠
      .error (.InvalidRequest "Salt required for encrypted keys") := by
  decide

/-- C8 amended: for every envelope that base64-decodes to at least 12
bytes, decryption with an absent salt returns `InvalidRequest`; an
envelope that fails base64 decoding or decodes to fewer than 12 bytes is
rejected as `InvalidKeyFormat` before the salt is consulted. -/
theorem c8_salt_required (C : CryptoPrims) (env pw : String) (bs : List UInt8)
    (hdec : base64Decode env = some bs) (hlen : 12 ≤ bs.length) :
    decrypt_private_key C env pw none =
      .error (.InvalidRequest "Salt required for encrypted keys") := by
  have hnl : ¬ (bs.length < 12) := by omega
  simp [decrypt_private_key, hdec, hnl]

/-- Witness for `c8_salt_required` on a 12-byte envelope. -/
theorem c8_salt_required_witness :
    decrypt_private_key toyPrims (base64Encode (List.replicate 12 0)) "pw" none =
      .error (.InvalidRequest "Salt required for encrypted keys") :=
  c8_salt_required toyPrims _ "pw" (List.replicate 12 0) (base64_roundtrip _) (by simp)

/-! ## Claim C9 — which operations write the backing document -/

/-- C9: `revoke_key`, `deactivate_key` and `update_last_used` mutate the
in-memory map only and leave the persisted document unchanged, while
`store_key` and `update_key` finish by re-serialising the whole map to
the backing document. -/
theorem c9_persistence_frame (s : KeyStorageState) (keyId : Nat) (now t : Int)
    (reason : Option String) (kp : KeyPair) (patch : UpdateKeyRequest) :
    (∀ s', revoke_key s keyId reason t = .ok s' → s'.disk = s.disk) ∧
    (∀ s', deactivate_key s keyId = .ok s' → s'.disk = s.disk) ∧
    (∀ s', update_last_used s keyId now = .ok s' → s'.disk = s.disk) ∧
    (store_key s kp).disk = some ((store_key s kp).keys.map (·.2)) ∧
    (∀ r s', update_key s keyId patch = .ok (r, s') →
      s'.disk = some (s'.keys.map (·.2))) := by
  refine ⟨?_, ?_, ?_, rfl, ?_⟩
  · intro s' h
    cases hl : lookupKey s.keys keyId with
    | none => simp [revoke_key, hl] at h
    | some kp0 =>
      simp [revoke_key, hl] at h
      subst h
      rfl
  · intro s' h
    cases hl : lookupKey s.keys keyId with
    | none => simp [deactivate_key, hl] at h
    | some kp0 =>
      simp [deactivate_key, hl] at h
      subst h
      rfl
  · intro s' h
    cases hl : lookupKey s.keys keyId with
    | none => simp [update_last_used, hl] at h
    | some kp0 =>
      simp [update_last_used, hl] at h
      subst h
      rfl
  · intro r s' h
    cases hl : lookupKey s.keys keyId with
    | none => simp [update_key, hl] at h
    | some kp0 =>
      simp [update_key, hl] at h
      obtain ⟨-, h2⟩ := h
      subst h2
      rfl

/-! ## Claim C10 — signing ignores the password in unencrypted mode -/

/-- C10: when the stored private-key material decodes to at most 64
bytes, `sign_document` takes the unencrypted branch and never consults
the password, so its outcome is identical for any two password values
(absent, correct or wrong). -/
theorem c10_sign_password_independent (C : CryptoPrims) (keyId : Nat)
    (dh dc p q : Option String) (privB64 : String) (saltB64 : Option String)
    (bs : List UInt8) (hdec : base64Decode privB64 = some bs)
    (hlen : bs.length ≤ 64) :
    sign_document C { key_id := keyId, document_hash := dh, password := p,
                      document_content := dc } privB64 saltB64 =
    sign_document C { key_id := keyId, document_hash := dh, password := q,
                      document_content := dc } privB64 saltB64 := by
  have hng : ¬ (bs.length > 64) := by omega
  simp [sign_document, hdec, resolveSigningKey, hng]

/-- Witness for `c10_sign_password_independent`: absent versus wrong
password on a 64-byte unencrypted key. -/
theorem c10_sign_password_independent_witness :
    sign_document toyPrims { key_id := 0, document_hash := some "abc", password := none,
                             document_content := none }
      (base64Encode (List.replicate 64 0)) none =
    sign_document toyPrims { key_id := 0, document_hash := some "abc", password := some "wrong",
                             document_content := none }
      (base64Encode (List.replicate 64 0)) none :=
  c10_sign_password_independent toyPrims 0 (some "abc") none none (some "wrong") _ none _
    (base64_roundtrip _) (by simp)

/-! ## Claim C4 — totality of the core operations -/

/-- C4: the spec requires every core operation to return a typed outcome
on caller-supplied bad input, but `sign_document` reaches the
`try_into().unwrap()` abort whenever the decoded private-key material is
not exactly 64 bytes: the empty string decodes to 0 bytes and the
operation aborts instead of returning an error. -/
theorem c4_sign_document_panics (C : CryptoPrims) (request : SignDocumentRequest)
    (saltB64 : Option String) :
    sign_document C request "" saltB64 = .panic := by
  have h : base64Decode "" = some [] := rfl
  simp [sign_document, h, resolveSigningKey]

/-! ## Shared facts about the signing and verification pipelines -/

theorem resolveSigningKey_unencrypted (C : CryptoPrims) (pw : Option String)
    (privB64 : String) (saltB64 : Option String) (bs : List UInt8)
    (hlen : bs.length = 64) (hvalid : C.edValidKeypairBytes bs = true) :
    resolveSigningKey C pw privB64 saltB64 bs = .ok bs := by
  have hng : ¬ (bs.length > 64) := by omega
  simp [resolveSigningKey, hng, hlen, hvalid]

theorem sign_document_with_key (C : CryptoPrims) (req : SignDocumentRequest)
    (privB64 : String) (saltB64 : Option String) (bs key : List UInt8)
    (hdec : base64Decode privB64 = some bs)
    (hres : resolveSigningKey C req.password privB64 saltB64 bs = .ok key) :
    sign_document C req privB64 saltB64 =
      (match req.document_hash with
       | none => .error (.InvalidRequest "Document hash or content must be provided")
       | some h =>
         match hexDecode (documentHashOf C h) with
         | none => .error (.InvalidRequest "Invalid document hash format")
         | some hashBytes => .ok (base64Encode (C.edSign key hashBytes))) := by
  simp [sign_document, hdec, hres]

theorem verify_signature_wellformed (C : CryptoPrims) (pk sb hb : List UInt8)
    (h : String) (dc : Option String)
    (hpk : pk.length = 32) (hpoint : C.edValidPoint pk = true)
    (hsb : sb.length = 64)
    (hhex : hexDecode (documentHashOf C h) = some hb) :
    verify_signature C { public_key := base64Encode pk, document_hash := some h,
                         signature := base64Encode sb, document_content := dc } =
      .ok (C.edVerify pk hb sb) := by
  simp [verify_signature, base64_roundtrip, hpk, hpoint, hsb, hhex]

/-! ## Claim C7 — verification of well-formed non-matching input -/

def toyPrimsReject : CryptoPrims :=
  { toyPrims with edVerify := fun _ _ _ => false }

/-- C7: with a 32-byte valid public key and a 64-byte signature, and the
Ed25519 primitive rejecting the (for instance bit-flipped) hash/signature
pair, `verify_signature` returns `Ok false` — it never turns a merely
non-matching signature into an error. -/
theorem c7_verify_no_error_on_mismatch (C : CryptoPrims) (pk sb hb : List UInt8)
    (h : String) (hpk : pk.length = 32) (hpoint : C.edValidPoint pk = true)
    (hsb : sb.length = 64) (hhex : hexDecode (documentHashOf C h) = some hb)
    (hreject : C.edVerify pk hb sb = false) :
    verify_signature C { public_key := base64Encode pk, document_hash := some h,
                         signature := base64Encode sb, document_content := none } =
      .ok false := by
  rw [verify_signature_wellformed C pk sb hb h none hpk hpoint hsb hhex, hreject]

/-- Witness for `c7_verify_no_error_on_mismatch` at a concrete rejecting
primitive instance. -/
theorem c7_verify_no_error_on_mismatch_witness :
    verify_signature toyPrimsReject
      { public_key := base64Encode (List.replicate 32 0), document_hash := some "abc",
        signature := base64Encode (List.replicate 64 0), document_content := none } =
      .ok false :=
  c7_verify_no_error_on_mismatch toyPrimsReject (List.replicate 32 0)
    (List.replicate 64 0) (List.replicate 32 0) "abc" (by simp) rfl (by simp)
    (by decide) rfl

/-! ## Claim C6 — the document-identity forms accepted by `sign` -/

/-- C6 as stated is false: a 64-character non-hex string is a supplied
document identity (raw content under the claim's taxonomy), yet
`sign_document` takes it verbatim as a digest, fails to hex-decode it
and returns `InvalidRequest` instead of signing. -/
theorem c6_counterexample :
    (String.mk (List.replicate 64 'z')).length = 64 ∧
    sign_document toyPrims
      { key_id := 0, document_hash := some (String.mk (List.replicate 64 'z')),
        password := none, document_content := none }
      (base64Encode (List.replicate 64 0)) none =
      .error (.InvalidRequest "Invalid document hash format") := by
  decide

/-- C6 amended: `sign_document` reads the document identity solely from
the optional `document_hash` field: a 64-character value is used
verbatim as a hex digest and must hex-decode (otherwise
`InvalidRequest`), any other value is treated as raw content and
SHA-256-hashed before signing, and an absent field is `InvalidRequest`
regardless of `document_content`. -/
theorem c6_document_identity_dispatch (C : CryptoPrims) (keyId : Nat)
    (pw dc : Option String) (privB64 : String) (saltB64 : Option String)
    (kb : List UInt8) (hdec : base64Decode privB64 = some kb)
    (hlen : kb.length = 64) (hvalid : C.edValidKeypairBytes kb = true) :
    (sign_document C { key_id := keyId, document_hash := none, password := pw,
                       document_content := dc } privB64 saltB64 =
      .error (.InvalidRequest "Document hash or content must be provided")) ∧
    (∀ d : String, d.length ≠ 64 →
      sign_document C { key_id := keyId, document_hash := some d, password := pw,
                        document_content := dc } privB64 saltB64 =
        .ok (base64Encode (C.edSign kb (C.sha256 d)))) ∧
    (∀ (d : String) (hb : List UInt8), d.length = 64 → hexDecode d = some hb →
      sign_document C { key_id := keyId, document_hash := some d, password := pw,
                        document_content := dc } privB64 saltB64 =
        .ok (base64Encode (C.edSign kb hb))) ∧
    (∀ d : String, d.length = 64 → hexDecode d = none →
      sign_document C { key_id := keyId, document_hash := some d, password := pw,
                        document_content := dc } privB64 saltB64 =
        .error (.InvalidRequest "Invalid document hash format")) := by
  have hres := resolveSigningKey_unencrypted C pw privB64 saltB64 kb hlen hvalid
  refine ⟨?_, ?_, ?_, ?_⟩
  · rw [sign_document_with_key C _ _ _ kb kb hdec hres]
  · intro d hd
    rw [sign_document_with_key C _ _ _ kb kb hdec hres]
    simp [documentHashOf, hd, hexDecode_hexEncode]
  · intro d hb hd hhex
    rw [sign_document_with_key C _ _ _ kb kb hdec hres]
    simp [documentHashOf, hd, hhex]
  · intro d hd hhex
    rw [sign_document_with_key C _ _ _ kb kb hdec hres]
    simp [documentHashOf, hd, hhex]

/-- Witness for `c6_document_identity_dispatch` on a 64-byte unencrypted
key. -/
theorem c6_document_identity_dispatch_witness :
    (sign_document toyPrims
        { key_id := 0, document_hash := none, password := none, document_content := none }
        (base64Encode (List.replicate 64 0)) none =
      .error (.InvalidRequest "Document hash or content must be provided")) ∧
    (∀ d : String, d.length ≠ 64 →
      sign_document toyPrims
        { key_id := 0, document_hash := some d, password := none, document_content := none }
        (base64Encode (List.replicate 64 0)) none =
        .ok (base64Encode (toyPrims.edSign (List.replicate 64 0) (toyPrims.sha256 d)))) ∧
    (∀ (d : String) (hb : List UInt8), d.length = 64 → hexDecode d = some hb →
      sign_document toyPrims
        { key_id := 0, document_hash := some d, password := none, document_content := none }
        (base64Encode (List.replicate 64 0)) none =
        .ok (base64Encode (toyPrims.edSign (List.replicate 64 0) hb))) ∧
    (∀ d : String, d.length = 64 → hexDecode d = none →
      sign_document toyPrims
        { key_id := 0, document_hash := some d, password := none, document_content := none }
        (base64Encode (List.replicate 64 0)) none =
        .error (.InvalidRequest "Invalid document hash format")) :=
  c6_document_identity_dispatch toyPrims 0 none none _ none (List.replicate 64 0)
    (base64_roundtrip _) (by simp) rfl

/-! ## Claim C3 — decryption under a wrong password -/

/-- C3: for an envelope produced by `encrypt_private_key` under password
`p` and salt `s`, decryption under any password `q` whose derived key
makes the AEAD authentication fail (the guarantee AES-256-GCM provides
for a wrong password) returns exactly `PrivateKeyDecryptionFailed` — in
particular it never returns `Ok` with plaintext different from the
original key bytes. -/
theorem c3_wrong_password_decryption (C : CryptoPrims)
    (kp salt nonce ct keyP keyQ : List UInt8) (p q : String)
    (hnonce : nonce.length = 12)
    (hkdfP : C.pbkdf2HmacSha256 p salt 100000 32 = some keyP)
    (henc : C.aesGcmEncrypt keyP nonce kp = some ct)
    (hkdfQ : C.pbkdf2HmacSha256 q salt 100000 32 = some keyQ)
    (hreject : C.aesGcmDecrypt keyQ nonce ct = none) :
    encrypt_private_key C salt nonce kp p =
      .ok (base64Encode (nonce ++ ct), some (base64Encode salt)) ∧
    decrypt_private_key C (base64Encode (nonce ++ ct)) q (some (base64Encode salt)) =
      .error (.PrivateKeyDecryptionFailed "Invalid password or corrupted data") := by
  constructor
  · simp [encrypt_private_key, hkdfP, henc]
  · have hdec := base64_roundtrip (nonce ++ ct)
    have hnl : ¬ ((nonce ++ ct).length < 12) := by
      rw [List.length_append, hnonce]; omega
    have htake : (nonce ++ ct).take 12 = nonce := by
      rw [← hnonce]; exact List.take_left nonce ct
    have hdrop : (nonce ++ ct).drop 12 = ct := by
      rw [← hnonce]; exact List.drop_left nonce ct
    simp [decrypt_private_key, hdec, hnl, htake, hdrop, base64_roundtrip, hkdfQ, hreject]
    omega

/-- Witness for `c3_wrong_password_decryption` at the key-checking AEAD
instance, passwords "p" versus "q". -/
theorem c3_wrong_password_decryption_witness :
    encrypt_private_key toyPrimsAuth [] (List.replicate 12 0) [5] "p" =
      .ok (base64Encode (List.replicate 12 0 ++ [0, 5]), some (base64Encode [])) ∧
    decrypt_private_key toyPrimsAuth (base64Encode (List.replicate 12 0 ++ [0, 5])) "q"
        (some (base64Encode [])) =
      .error (.PrivateKeyDecryptionFailed "Invalid password or corrupted data") :=
  c3_wrong_password_decryption toyPrimsAuth [5] [] (List.replicate 12 0) [0, 5]
    [0] [1] "p" "q" (by simp) (by decide) (by decide) (by decide) (by decide)

/-! ## Claim C1 — generate, sign, verify -/

/-- C1: for a freshly generated key pair (with or without a password),
signing a document identity with the record's private-key material —
supplying the generation password when the material is encrypted — and
verifying the resulting signature against the record's public key
returns `Ok true`.  The hypotheses are the guarantees of the external
primitives: AES-GCM round-trips under the same key and appends a
16-byte tag, Ed25519 verification accepts the key's own signatures, and
the generated key bytes are well formed. -/
theorem c1_generate_sign_verify (C : CryptoPrims) (kp salt nonce : List UInt8)
    (rngId : Nat) (now : Int) (request : GenerateKeyRequest) (record : KeyPair)
    (h : String) (hb : List UInt8)
    (hkp64 : kp.length = 64)
    (hnonce : nonce.length = 12)
    (hvalidkp : C.edValidKeypairBytes kp = true)
    (hpoint : C.edValidPoint (C.edPublicKey kp) = true)
    (haead : ∀ key n pt ct, C.aesGcmEncrypt key n pt = some ct →
      C.aesGcmDecrypt key n ct = some pt)
    (hctlen : ∀ key n pt ct, C.aesGcmEncrypt key n pt = some ct →
      ct.length = pt.length + 16)
    (hcorrect : ∀ m, C.edVerify (C.edPublicKey kp) m (C.edSign kp m) = true)
    (hhex : hexDecode (documentHashOf C h) = some hb)
    (hgen : generate_key_pair C kp salt nonce rngId now request = .ok record) :
    sign_document C { key_id := rngId, document_hash := some h,
                      password := request.password, document_content := none }
      record.private_key record.salt =
      .ok (base64Encode (C.edSign kp hb)) ∧
    verify_signature C { public_key := record.public_key, document_hash := some h,
                         signature := base64Encode (C.edSign kp hb),
                         document_content := none } =
      .ok true := by
  cases hpw : request.password with
  | none =>
    simp [generate_key_pair, hpw] at hgen
    subst hgen
    constructor
    · rw [sign_document_with_key C _ _ _ kp kp (base64_roundtrip kp)
          (resolveSigningKey_unencrypted C _ _ _ kp hkp64 hvalidkp)]
      simp [hhex]
    · rw [verify_signature_wellformed C _ _ hb h none (C.edPublicKey_length kp)
          hpoint (C.edSign_length kp hb) hhex, hcorrect]
  | some pw =>
    cases hkdf : C.pbkdf2HmacSha256 pw salt 100000 32 with
    | none => simp [generate_key_pair, hpw, encrypt_private_key, hkdf] at hgen
    | some key =>
      cases henc : C.aesGcmEncrypt key nonce kp with
      | none => simp [generate_key_pair, hpw, encrypt_private_key, hkdf, henc] at hgen
      | some ct =>
        simp [generate_key_pair, hpw, encrypt_private_key, hkdf, henc] at hgen
        subst hgen
        have hctl := hctlen key nonce kp ct henc
        have hlen92 : (nonce ++ ct).length = 92 := by
          rw [List.length_append, hnonce, hctl, hkp64]
        have hdecrypt : decrypt_private_key C (base64Encode (nonce ++ ct)) pw
            (some (base64Encode salt)) = .ok kp := by
          have hnl : ¬ ((nonce ++ ct).length < 12) := by omega
          have htake : (nonce ++ ct).take 12 = nonce := by
            rw [← hnonce]; exact List.take_left nonce ct
          have hdrop : (nonce ++ ct).drop 12 = ct := by
            rw [← hnonce]; exact List.drop_left nonce ct
          have hdc := haead key nonce kp ct henc
          simp [decrypt_private_key, base64_roundtrip, hnl, htake, hdrop, hkdf, hdc]
          omega
        have hres : resolveSigningKey C (some pw) (base64Encode (nonce ++ ct))
            (some (base64Encode salt)) (nonce ++ ct) = .ok kp := by
          have hgt : (nonce ++ ct).length > 64 := by omega
          simp [resolveSigningKey, hgt, hdecrypt, hkp64, hvalidkp]
          intro hle
          exact absurd hle (by omega)
        constructor
        · rw [sign_document_with_key C _ _ _ (nonce ++ ct) kp
              (base64_roundtrip (nonce ++ ct)) hres]
          simp [hhex]
        · rw [verify_signature_wellformed C _ _ hb h none (C.edPublicKey_length kp)
              hpoint (C.edSign_length kp hb) hhex, hcorrect]

def c1Req : GenerateKeyRequest :=
  { name := "Alpha", description := none, password := none, expires_at := none,
    tags := none, key_strength := none }

def c1Record : KeyPair :=
  { id := 0, name := "Alpha", description := none,
    public_key := base64Encode (List.replicate 32 0),
    private_key := base64Encode (List.replicate 64 0), salt := none,
    created_at := 0, last_used := none, expires_at := none, is_active := true,
    tags := [], key_type := .Ed25519, key_strength := .Standard }

/-- Witness for `c1_generate_sign_verify`: a concrete unencrypted
generation followed by sign and verify. -/
theorem c1_generate_sign_verify_witness :
    sign_document toyPrims
      { key_id := 0, document_hash := some "abc", password := c1Req.password,
        document_content := none }
      c1Record.private_key c1Record.salt =
      .ok (base64Encode (toyPrims.edSign (List.replicate 64 0) (List.replicate 32 0))) ∧
    verify_signature toyPrims
      { public_key := c1Record.public_key, document_hash := some "abc",
        signature := base64Encode (toyPrims.edSign (List.replicate 64 0) (List.replicate 32 0)),
        document_content := none } =
      .ok true :=
  c1_generate_sign_verify toyPrims (List.replicate 64 0) (List.replicate 32 0)
    (List.replicate 12 0) 0 0 c1Req c1Record "abc" (List.replicate 32 0)
    (by simp) (by simp) rfl rfl
    (by
      intro key n pt ct hct
      simp [toyPrims] at hct
      subst hct
      simp [toyPrims])
    (by
      intro key n pt ct hct
      simp [toyPrims] at hct
      subst hct
      simp [toyPrims])
    (fun _ => rfl)
    (by decide)
    (by decide)

end Inkan
